import Mathlib

/-!
Shallow embedding of the home-energy automation scripts
(`energy.py`, `modules/energy_core.py`, `modules/victron.py`,
`electricity_price.py`, `modules/const.py`) and proofs about the
claims of the specification.

Python floats are modelled as real numbers; `datetime` values are
modelled by the structure `Dt` below; state reads (`get(...)`) are
modelled as explicit environment parameters; fallible code (Python
exceptions such as `AttributeError` / `TypeError` / `IndexError`)
is modelled with `Option`.
-/

noncomputable section

namespace HAEnergy

/-- Model of a Python `datetime`: `t` is the absolute time in hours
(used for ordering and subtraction, `total_seconds()/3600`); `day`,
`hour`, `minute` are the calendar accessors read by the code. -/
structure Dt where
  t : ℝ
  day : ℤ
  hour : ℤ
  minute : ℤ

/-- `start + timedelta(minutes=m)`.  Only the absolute time of the
shifted value is ever read by the embedded code (it is stored in
`t_max_bat`, which no code inspects further), so the calendar
fields are kept unchanged. -/
def Dt.addMinutes (d : Dt) (m : ℝ) : Dt :=
  { d with t := d.t + m / 60 }

/-- `modules/utils.py` `clip(val, minv, maxv) = max(minv, min(val, maxv))`. -/
def clip (val minv maxv : ℝ) : ℝ := max minv (min val maxv)

/-- Python `round` (banker's rounding: ties go to the nearest even integer). -/
def pyRound (x : ℝ) : ℤ :=
  if Int.fract x = 1 / 2 then (if (2 : ℤ) ∣ ⌊x⌋ then ⌊x⌋ else ⌊x⌋ + 1)
  else round x

/-- `next(iter([s for s in l if p s]), None)`: first element satisfying `p`. -/
def findFirst {α : Type} (p : α → Prop) [DecidablePred p] : List α → Option α
  | [] => none
  | x :: xs => if p x then some x else findFirst p xs

/-! ### electricity_price.py -/

/-- `get_price(hour, minute)`: static time-of-day tariff. -/
def get_price (hour minute : ℤ) : ℝ :=
  if (hour = 23 ∧ 30 ≤ minute) ∨ hour ≤ 4 ∨ (hour = 5 ∧ minute < 30) then 0.175
  else 0.255

/-- `is_low_price(price)` (a Python bool). -/
def is_low_price (price : ℝ) : Bool := decide (price < 0.2)

/-! ### modules/const.py (`EV`, imported as `Const` / `EVConst`) -/

def ev_capacity : ℝ := 60

def max_current : ℝ := 16

def min_current : ℝ := 6

/-- Modelled from the spec: the charging voltage (230 V, §4.3 of the
spec, e.g. `3 * 230V * (maxCurrent-1) / 1000`).  `Const.voltage` is
referenced by `modules/energy_core.py` but is not defined in
`modules/const.py` in the source tree. -/
def voltage : ℝ := 230

/-- Modelled from the spec: the minimum phase count (1, §4.3 rule 7
"drop to 1 phase").  `Const.min_phases` is referenced by
`modules/energy_core.py` but is not defined in `modules/const.py`. -/
def min_phases : ℝ := 1

/-- Modelled from the spec: EV energy consumption per 100 km in kWh
(§4.2 "energy_per_100km"); `EVConst.kwh_per_100km` is referenced by
`energy.py` but is not defined in `modules/const.py`.  No value is
given in src or spec; no theorem below depends on this value. -/
def kwh_per_100km : ℝ := 20

/-! ### modules/energy_core.py -/

/-- `_get_ev_smart_charge_limit(schedule, t_now, active_schedule)`:
schedule-aware EV charge cap (a percentage). -/
def smart_charge_limit_of (schedule : Option Dt) (t_now : Dt)
    (active_schedule : Bool) : ℝ :=
  match schedule with
  | none => 85
  | some s =>
    let td_hours : ℤ := ⌊s.t - t_now.t⌋
    if td_hours < 6 ∨ active_schedule = true then 100
    else if td_hours < 20 then 98
    else if td_hours < 40 then 95
    else if td_hours < 60 then 90
    else 85

/-- `_get_ev_energy_needed(required_soc, current_soc, smart_charge_limit,
smart_limiter_active)`. -/
def ev_energy_needed_of (required_soc current_soc smart_charge_limit : ℝ)
    (smart_limiter_active : Bool) : ℝ :=
  let required_soc :=
    if smart_limiter_active = true then min smart_charge_limit required_soc
    else required_soc
  max 0 ((required_soc - current_soc) / 100 * ev_capacity)

/-- `calculate_charger_current_adjustment`. -/
def calculate_charger_current_adjustment
    (current_excess target_excess configured_phases configured_current : ℝ) : ℝ :=
  let diff := current_excess - target_excess
  let power_change_per_current_step := 230 * max 6 configured_phases / 1000
  let upper_limit := min 4 (16 - configured_current)
  let lower_limit := max (-4) (6 - configured_current)
  clip ((pyRound (diff / power_change_per_current_step) : ℤ) : ℝ) lower_limit upper_limit

/-- `ChargeAction` (energy_core.py). -/
inductive CA where
  | on : CA
  | off : CA
deriving DecidableEq

/-- Tag for the reason string of each return of `_get_charge_action`
(the strings themselves are diagnostics, not semantically load-bearing). -/
inductive CAReason where
  | targetReached : CAReason
  | smartLimitReached : CAReason
  | emergencyCharge : CAReason
  | excessPower : CAReason
  | reducePhases : CAReason
  | offAtMinimum : CAReason
  | reduceCurrent : CAReason
  | lowPriceBatteryDischarging : CAReason
  | lowPriceNoBatteryDischarging : CAReason
  | highPriceStillTime : CAReason
  | noneMatched : CAReason
deriving DecidableEq

/-- Result tuple of `_get_charge_action`: `(action, phases, current, reason)`. -/
structure CAResult where
  action : CA
  phases : ℝ
  current : ℝ
  reason : CAReason
deriving DecidableEq

/-- The hysteresis adjustment applied by `_get_charge_action` when not
charging and the smart limit is below 100 (applied to the already
3-kWh-reduced surplus): returns the adjusted
`(smart_charge_limit, surplus_energy, excess_target)`. -/
def hysteresisAdjust (is_charging : Bool) (smart_charge_limit surplus_energy
    excess_target : ℝ) : ℝ × ℝ × ℝ :=
  if is_charging = false ∧ smart_charge_limit < 100 then
    (smart_charge_limit - 1, surplus_energy - 2, excess_target + 1000)
  else (smart_charge_limit, surplus_energy, excess_target)

/-- The smart-limiter flag after `if smart_charge_limit == 100:
smart_limiter_active = False` (on the hysteresis-adjusted limit). -/
def smartLimiterAfter (smart_charge_limit : ℝ) (smart_limiter_active : Bool) : Bool :=
  if smart_charge_limit = 100 then false else smart_limiter_active

/-- `_get_charge_action` (energy_core.py lines 77-229).  The two state
reads of the low-price branch (`get(Victron.mode_sensor).lower() == "on"`
and `get(Battery.force_charge_switch, False)`) are modelled by the two
trailing environment parameters. -/
def get_charge_action (next_drive : Option Dt)
    (current_soc required_soc energy_needed excess_power excess_target
      surplus_energy smart_charge_limit : ℝ)
    (smart_limiter_active : Bool) (configured_phases configured_current : ℝ)
    (is_low_price_in : Bool) (pv_total_power battery_soc hysteresis : ℝ)
    (is_charging : Bool) (t_now : Dt)
    (victron_mode_on battery_force_charge_switch : Bool) : CAResult :=
  let hours_available_to_charge : ℝ :=
    match next_drive with
    | some nd => nd.t - t_now.t
    | none => 999
  let high_price := is_low_price_in = false
  let min_hours_needed := energy_needed / (3 * voltage * (max_current - 1) / 1000)
  let surplus_energy := surplus_energy - 3
  let adj3 := hysteresisAdjust is_charging smart_charge_limit surplus_energy excess_target
  let smart_charge_limit := adj3.1
  let surplus_energy := adj3.2.1
  let excess_target := adj3.2.2
  let smart_limiter_active := smartLimiterAfter smart_charge_limit smart_limiter_active
  if energy_needed ≤ 0 ∧ surplus_energy ≤ 1 then
    ⟨CA.off, 1, 6, CAReason.targetReached⟩
  else if smart_limiter_active = true ∧ current_soc > smart_charge_limit then
    ⟨CA.off, 1, 6, CAReason.smartLimitReached⟩
  else if (hours_available_to_charge < 2 ∨ hours_available_to_charge < min_hours_needed)
      ∧ current_soc < required_soc - 1 then
    ⟨CA.on, 3, max_current, CAReason.emergencyCharge⟩
  else if excess_power > excess_target ∧ surplus_energy > 0
      ∧ (battery_soc > 90 ∨ pv_total_power > 1500 ∨ hours_available_to_charge < 14) then
    let available_power := excess_power - excess_target
    let min_3phase_power := 3 * voltage * min_current
    let phase_switch_threshold :=
      if configured_phases = 3 then min_3phase_power - hysteresis
      else min_3phase_power + hysteresis
    let current_power := configured_phases * configured_current * voltage
    let phases : ℝ := if current_power + available_power ≥ phase_switch_threshold then 3 else 1
    let adj := calculate_charger_current_adjustment excess_power excess_target
      configured_phases configured_current
    ⟨CA.on, phases, configured_current + adj, CAReason.excessPower⟩
  else if is_charging = true ∧ excess_power < excess_target then
    if configured_current = min_current then
      if configured_phases > min_phases then
        let adj := calculate_charger_current_adjustment excess_power excess_target 1 max_current
        ⟨CA.on, 1, clip (max_current + adj) min_current max_current, CAReason.reducePhases⟩
      else ⟨CA.off, 1, 6, CAReason.offAtMinimum⟩
    else
      let adj := calculate_charger_current_adjustment excess_power excess_target
        configured_phases configured_current
      ⟨CA.on, configured_phases, max min_current (configured_current + adj),
        CAReason.reduceCurrent⟩
  else if is_low_price_in = true ∧ hours_available_to_charge < 14 then
    let battery_discharging := victron_mode_on = true ∧ battery_force_charge_switch = false
    if battery_discharging then
      let adj := calculate_charger_current_adjustment excess_power excess_target 3
        configured_current
      ⟨CA.on, 3, configured_current + adj, CAReason.lowPriceBatteryDischarging⟩
    else ⟨CA.on, 3, max_current, CAReason.lowPriceNoBatteryDischarging⟩
  else if high_price ∧ surplus_energy ≤ 0 ∧ excess_power < excess_target then
    let charge_rate_kw := (3 * voltage * max_current) / 1000
    let min_required_time := energy_needed / charge_rate_kw
    -- both branches of the source return the identical tuple
    if ¬(hours_available_to_charge < min_required_time - 0.5) then
      ⟨CA.off, 1, 6, CAReason.highPriceStillTime⟩
    else ⟨CA.off, 1, 6, CAReason.highPriceStillTime⟩
  else ⟨CA.off, 1, 6, CAReason.noneMatched⟩

/-! ### modules/victron.py -/

/-- Victron inverter mode (payload strings "1".."4"). -/
inductive InverterMode where
  | chargerOnly : InverterMode
  | inverterOnly : InverterMode
  | on : InverterMode
  | off : InverterMode
deriving DecidableEq

/-- Tag for the reason strings of `get_auto_inverter_mode`. -/
inductive IMReason where
  | defaultMode : IMReason
  | evChargingWithSurplus : IMReason
  | evChargingPv : IMReason
  | noPvLowPrice : IMReason
  | lowPriceBelowTarget : IMReason
  | forceCharge : IMReason
  | disableForceCharge : IMReason
deriving DecidableEq

/-- `get_auto_inverter_mode` (victron.py lines 54-102): returns
`(new_mode, new_charge_limit, new_force_charge_switch_state, reason)`. -/
def get_auto_inverter_mode (ev_is_charging : Bool)
    (surplus_energy pv_power daily_avg_power battery_soc target_soc
      electricity_price min_discharge_price max_charge_price
      charge_limit_percent : ℝ)
    (force_charge_switch : Bool) :
    InverterMode × Option ℝ × Option Bool × IMReason :=
  let min_charge_power : ℝ := 6 * 230
  let pre : InverterMode × IMReason :=
    if ev_is_charging = true then
      if surplus_energy > 0 ∨
          (pv_power > (min_charge_power + daily_avg_power) ∧ battery_soc > target_soc) then
        (InverterMode.on, IMReason.evChargingWithSurplus)
      else if pv_power < 10 then (InverterMode.off, IMReason.evChargingPv)
      else (InverterMode.chargerOnly, IMReason.evChargingPv)
    else if electricity_price < min_discharge_price
        ∧ battery_soc < max 5 (max target_soc (-5)) then
      if pv_power = 0 then (InverterMode.off, IMReason.noPvLowPrice)
      else (InverterMode.chargerOnly, IMReason.lowPriceBelowTarget)
    else (InverterMode.on, IMReason.defaultMode)
  if electricity_price < max_charge_price ∧ battery_soc < target_soc
      ∧ battery_soc < charge_limit_percent then
    (InverterMode.on, some 3000, some true, IMReason.forceCharge)
  else if force_charge_switch = true then
    (pre.1, some (-1), some false, IMReason.disableForceCharge)
  else (pre.1, none, none, pre.2)

/-! ### energy.py: gaussian setpoint mapping -/

/-- `gaussian(x, mean, std)` (energy.py lines 843-845). -/
def gaussian (x mean std : ℝ) : ℝ :=
  Real.exp (-0.5 * ((x - mean) / std) ^ 2) / (std * Real.sqrt (2 * Real.pi))

/-- The PV surplus beyond the battery power target used by
`map_setpoint`: `surplus_pv = max(0, pv_power - house_power -
max_battery_power_target)`. -/
def surplusPv (pv_power house_power max_battery_power_target : ℝ) : ℝ :=
  max 0 (pv_power - house_power - max_battery_power_target)

/-- `map_setpoint` (energy.py lines 848-894).  The Python default
arguments are `max_feedin=4000, setpoint_spread=1, min_setpoint=-20,
max_setpoint=-20, max_battery_power_target=4000`; all arguments are
passed positionally here.  `** 0.5` on the positive value
`max(1e-5, setpoint_spread)` is modelled with `Real.sqrt`. -/
def map_setpoint (setpoint price prices_mean prices_std battery_energy
    battery_min_limit pv_power house_power max_feedin setpoint_spread
    min_setpoint max_setpoint max_battery_power_target : ℝ) : ℝ :=
  let price := price * 100
  let prices_mean := prices_mean * 100
  let prices_std := prices_std * 100
  let prices_std := max 5 prices_std
  let price := if price > prices_mean + prices_std then prices_mean + prices_std else price
  let mean := prices_mean + prices_std
  let std := Real.sqrt (max 1e-5 setpoint_spread) * prices_std
  let max_prob := gaussian 0 0 std
  let gaus_prob := gaussian price mean std / max_prob
  let new_setpoint := gaus_prob * setpoint
  let new_setpoint :=
    if battery_energy < battery_min_limit + 2 ∧ pv_power < house_power then
      setpoint * ((battery_energy - battery_min_limit) / 2) ^ 4
    else new_setpoint
  let surplus_pv := surplusPv pv_power house_power max_battery_power_target
  let new_setpoint :=
    if surplus_pv > 0 ∧ setpoint < max_setpoint then min new_setpoint (-surplus_pv)
    else new_setpoint
  max (-(max_feedin + surplus_pv)) (min min_setpoint new_setpoint)

/-! ### energy.py: data model of the forecast simulation -/

/-- `EVScheduleEntry` (energy.py `define_interfaces`): a planned drive.
The source field `end` is named `endTime` here (`end` is reserved). -/
structure EVScheduleEntry where
  start : Dt
  endTime : Dt
  distance : Option ℝ
  required_soc : Option ℝ

/-- `PVForecastWithPrices`: one forecast period. -/
structure PVForecastWithPrices where
  period_start : Dt
  pv_estimate : ℝ
  price_per_kwh : ℝ

/-- `ForecastEntry`: the per-period detail record appended by
`forecast_setpoint`. -/
structure ForecastEntry where
  period_start : Dt
  pv_estimate : ℝ
  battery_energy : ℝ
  house_power : ℝ
  setpoint : ℝ
  power_draw : ℝ
  energy_use : ℝ
  energy_production : ℝ
  free_capacity : ℝ
  accumulated_energy : ℝ
  feedin : ℝ
  price : ℝ
  battery_power : ℝ
  setpoint_spread : ℝ
  ev_energy : Option ℝ
  ev_charge_power : ℝ
  excess_target : ℝ
  surplus : ℝ
  power_from_grid : ℝ

/-- `SetpointResult`: the aggregate of one simulation run. -/
structure SetpointResult where
  setpoint : ℝ
  min_bat : ℝ
  t_min_bat : Dt
  max_bat : ℝ
  t_max_bat : Dt
  max_feedin : ℝ
  t_max_feedin : Dt
  setpoint_spread : ℝ
  prices_mean : ℝ
  prices_std : ℝ
  max_battery_power_target : ℝ
  detail : List ForecastEntry

/-- `_get_excess_target` (energy.py lines 474-506): sinusoidal excess
power control curve.  `with_timezone` is the identity on the time
model. -/
def get_excess_target (battery_target_soc battery_soc ev_required_soc : ℝ)
    (ev_is_charging : Bool) (next_planned_drive : Option Dt) (pv_power ev_soc : ℝ)
    (t_now : Dt) (efficient_discharge : Bool) : ℝ :=
  let power_abs_max : ℝ := if efficient_discharge = true then 2500 else 6000
  let soc_difference := (battery_target_soc - battery_soc) / 100
  let normalized_difference := soc_difference * 2 * Real.pi
  let normalized_difference_clipped :=
    clip normalized_difference (-(Real.pi / 2)) (Real.pi / 2)
  let power := Real.sin normalized_difference_clipped * power_abs_max
  let power := clip power (-power_abs_max) power_abs_max
  if ev_is_charging = true ∧ efficient_discharge = true then
    let planned_leave_soon : Bool :=
      match next_planned_drive with
      | some nd => decide ((nd.t - t_now.t) < 24)
      | none => false
    if planned_leave_soon = false ∧ pv_power > 2000 then
      if ev_soc > ev_required_soc then max power (pv_power - 4000)
      else max power (pv_power / 3)
    else power
  else power

/-- The arguments of `forecast_setpoint` (energy.py lines 897-915)
together with the values its body reads from the live state
(`get(...)` calls, lines 922-984): the state reads are environment
inputs of the simulation. -/
structure FSParams where
  setpoint : ℝ
  batteryCapacity : ℝ
  minFeedinPrice : ℝ
  forecastDampening : ℝ
  batteryEnergy : ℝ
  setpointSpread : ℝ
  batteryMinEnergy : ℝ
  batteryChargeLimit : ℝ
  withEvCharging : Bool
  evEnergy : Option ℝ
  maxBatteryPowerTarget : ℝ
  maxPvFeedinTarget : ℝ
  maxSetpoint : ℝ
  evSchedule : Option (List EVScheduleEntry)
  surplusEnergy : Option ℝ
  tNow : Dt
  evRequiredSoc0 : ℝ
  evSoc0 : ℝ
  smartLimiterActive : Bool
  dailyPower : ℝ
  nightlyPower : ℝ
  chargerReady : Bool
  chargerControlSwitch : Bool
  forceChargeUpTo : ℝ
  maxChargePrice : ℝ
  forceChargeSwitch : Bool
  minDischargePrice : ℝ
  houseEnergySurplus : ℝ
  efficientDischarge : Bool
  victronModeOn : Bool

/-- The mutable loop state of `forecast_setpoint`. -/
structure FSState where
  evRequiredSoc : ℝ
  evSoc : ℝ
  smartChargeLimit : ℝ
  nextDriveEvent : Option EVScheduleEntry
  isChargingEv : Bool
  chargePhases : ℝ
  chargeCurrent : ℝ
  accumulatedEnergy : ℝ
  evEnergy : Option ℝ
  surplus : ℝ
  maxFeedin : ℝ
  minForecastBattery : ℝ
  maxForecastBattery : ℝ
  tMinBat : Dt
  tMaxBat : Dt
  tMaxFeedin : Dt
  maxPvFeedinTarget : ℝ
  detail : List ForecastEntry

/-- `is_charging_possible` (energy.py lines 942-950), a closure over the
running `is_charging_ev`.  `none` models the `AttributeError` of
`dt > next_drive.end` when no next drive exists and the `TypeError`
of iterating a missing schedule or comparing a missing EV energy;
Python's `or`/`and` short-circuiting is reproduced. -/
def is_charging_possible (P : FSParams) (isChargingEv : Bool)
    (nextDrive : Option EVScheduleEntry) (dt : Dt) (evEnergy : Option ℝ)
    (smartChargeLimit : ℝ) : Option Bool :=
  if P.withEvCharging = false then some false
  else
    match P.evSchedule with
    | none => none
    | some sched =>
      let ongoing := findFirst (fun s => s.start.t ≤ dt.t ∧ dt.t < s.endTime.t) sched
      if P.chargerReady = true ∨ isChargingEv = true then
        if ongoing.isSome then some false
        else
          match evEnergy with
          | none => none
          | some ee => some (decide (ee < ev_capacity * smartChargeLimit / 100))
      else
        match nextDrive with
        | none => none
        | some nd =>
          if ¬(dt.t > nd.endTime.t) then some false
          else if ongoing.isSome then some false
          else
            match evEnergy with
            | none => none
            | some ee => some (decide (ee < ev_capacity * smartChargeLimit / 100))

/-- The EV-energy update of energy.py lines 1088-1096: while the EV
charges (with more than 1 W), its energy rises by the charge power
over the period, clamped at `smart_charge_limit`, and the period's
setpoint is overridden to -20; otherwise the mapped setpoint stands and
the charge power is zeroed.  Returns
`(ev_energy, free_capacity, this_setpoint, ev_soc, ev_charge_power)`;
`none` models arithmetic on a missing EV energy. -/
def evUpdate (isChargingEv : Bool) (evChargePower0 smartChargeLimit periodHours : ℝ)
    (evEnergy : Option ℝ) (mappedSetpoint evSoc batteryCapacity batteryEnergy : ℝ) :
    Option (Option ℝ × ℝ × ℝ × ℝ × ℝ) :=
  if isChargingEv = true ∧ evChargePower0 > 1 then
    match evEnergy with
    | none => none
    | some ee =>
      let ee1 := min smartChargeLimit (ee + evChargePower0 * periodHours / 1000)
      some (some ee1, smartChargeLimit - ee1 + batteryCapacity - batteryEnergy,
        -20, ee1 / ev_capacity * 100, evChargePower0)
  else some (evEnergy, batteryCapacity - batteryEnergy, mappedSetpoint, evSoc, 0)

/-- One iteration of the simulation loop of `forecast_setpoint`
(energy.py lines 988-1189).  `none` models an uncaught Python
exception inside the loop body. -/
def fsStep (P : FSParams) (pricesMean pricesStd fullPeriodMinutes : ℝ)
    (nextDrive : Option EVScheduleEntry) (st : FSState)
    (entry : PVForecastWithPrices) : Option FSState :=
  let start := entry.period_start
  let price := max P.minFeedinPrice entry.price_per_kwh
  -- lines 990-995: schedule bookkeeping (done even for skipped periods)
  let sched := P.evSchedule.getD []
  let ongoingDrive : Option EVScheduleEntry :=
    match sched with
    | [] => none
    | _ => findFirst (fun s => s.start.t ≤ start.t ∧ start.t < s.endTime.t) sched
  let upd : Option EVScheduleEntry × ℝ :=
    match sched with
    | [] => (st.nextDriveEvent, st.evRequiredSoc)
    | _ =>
      match findFirst (fun s => s.start.t ≤ start.t ∧ start.t < s.endTime.t) sched with
      | some _ => (st.nextDriveEvent, st.evRequiredSoc)
      | none =>
        let n := findFirst (fun s => s.start.t > start.t) sched
        (n,
          match n with
          | some e =>
            match e.required_soc with
            | some rs => if rs = 0 then st.evRequiredSoc else rs
            | none => st.evRequiredSoc
          | none => st.evRequiredSoc)
  let nde := upd.1
  let evRequiredSoc := upd.2
  -- lines 996-1003: stale periods are skipped (`continue`)
  let td := max (P.tNow.t - start.t) 0
  if P.tNow.t > start.t ∧ td > fullPeriodMinutes / 60 then
    some { st with nextDriveEvent := nde, evRequiredSoc := evRequiredSoc }
  else
    let periodMinutes := if P.tNow.t > start.t then td * 60 else fullPeriodMinutes
    let periodHours := periodMinutes / 60
    let powerProduction := entry.pv_estimate * P.forecastDampening * 1000
    let housePower := if 7 < start.hour ∧ start.hour < 19 then P.dailyPower else P.nightlyPower
    -- lines 1008-1011
    let smartChargeLimit :=
      match nde with
      | some e => smart_charge_limit_of (some e.start) start false
      | none => st.smartChargeLimit
    let evEnergyNeeded :=
      ev_energy_needed_of evRequiredSoc st.evSoc smartChargeLimit P.smartLimiterActive
    -- line 1013 (`and` short-circuits, so the closure only runs when needed > 0)
    let couldCharge? : Option Bool :=
      if evEnergyNeeded > 0 then
        is_charging_possible P st.isChargingEv nextDrive start st.evEnergy smartChargeLimit
      else some false
    match couldCharge? with
    | none => none
    | some couldChargeEv =>
      -- lines 1015-1025
      let newBatteryEnergy := min (max 0 (P.batteryEnergy + st.accumulatedEnergy)) P.batteryCapacity
      let newBatterySoc := newBatteryEnergy / P.batteryCapacity * 100
      let batteryTargetSoc := max 5 (newBatterySoc - (st.surplus / P.batteryCapacity * 100))
      let electricityPrice := get_price start.hour start.minute
      let lowPrice : Bool := is_low_price electricityPrice
      let im := get_auto_inverter_mode st.isChargingEv st.surplus powerProduction P.dailyPower
        newBatterySoc batteryTargetSoc electricityPrice P.minDischargePrice P.maxChargePrice
        P.forceChargeUpTo P.forceChargeSwitch
      let inverterMode := im.1
      let chargePowerLimit := im.2.1
      let isForceCharging := im.2.2.1
      -- lines 1027-1037
      let excessTarget := get_excess_target batteryTargetSoc newBatterySoc evRequiredSoc
        st.isChargingEv (nde.map (fun e => e.start)) powerProduction st.evSoc start
        P.efficientDischarge
      -- lines 1039-1072: EV charge decision
      let dec : Bool × ℝ × ℝ :=
        if couldChargeEv = true then
          let r := get_charge_action (nde.map (fun e => e.start)) st.evSoc evRequiredSoc
            evEnergyNeeded (powerProduction - housePower) excessTarget st.surplus
            smartChargeLimit P.smartLimiterActive st.chargePhases st.chargeCurrent lowPrice
            powerProduction newBatterySoc 500 st.isChargingEv start P.victronModeOn
            P.forceChargeSwitch
          let newCurrent :=
            if r.phases ≠ st.chargePhases then (if r.phases = 1 then 8 else 6) else r.current
          (decide (r.action = CA.on), r.phases, newCurrent)
        else (false, 1, 6)
      let isChargingEv := dec.1
      let chargePhases := dec.2.1
      let chargeCurrent := dec.2.2
      -- line 1074: the gaussian-mapped setpoint of this period
      let mappedSetpoint := map_setpoint P.setpoint price pricesMean pricesStd newBatteryEnergy
        P.batteryMinEnergy powerProduction housePower 4000 P.setpointSpread (-20)
        P.maxSetpoint P.maxBatteryPowerTarget
      -- lines 1088-1098: EV energy update; the setpoint is overridden to -20
      -- while the EV charges
      let evChargePower0 := chargePhases * chargeCurrent * 230
      let ev? := evUpdate isChargingEv evChargePower0 smartChargeLimit periodHours
        st.evEnergy mappedSetpoint st.evSoc P.batteryCapacity P.batteryEnergy
      match ev? with
      | none => none
      | some evTuple =>
        let evEnergy1 := evTuple.1
        let freeCapacity := evTuple.2.1
        let thisSetpoint := evTuple.2.2.1
        let evSoc := evTuple.2.2.2.1
        let evChargePower := evTuple.2.2.2.2
        let surplus := st.surplus - evChargePower * periodHours / 1000
        -- lines 1100-1104: ongoing drive consumption (`if ongoing_drive and
        -- ongoing_drive.distance`, Python truthiness)
        let ev2? : Option (Option ℝ) :=
          match ongoingDrive with
          | some od =>
            match od.distance with
            | some d =>
              if d ≠ 0 then
                match evEnergy1 with
                | none => none
                | some ee =>
                  let total_required := d / 100 * kwh_per_100km
                  some (some (ee - total_required / max (od.endTime.t - od.start.t) 1 * periodHours))
              else some evEnergy1
            | none => some evEnergy1
          | none => some evEnergy1
        match ev2? with
        | none => none
        | some evEnergy2 =>
          -- line 1107: 5 kWh floor whenever the EV energy is tracked
          let evEnergy3 :=
            match evEnergy2 with
            | some ee => some (max 5 ee)
            | none => none
          -- lines 1110-1129: power and energy bookkeeping
          let powerDraw := housePower - thisSetpoint + evChargePower
          let energyUse := powerDraw * periodHours / 1000
          let energyProduction := powerProduction * periodHours / 1000
          let netEnergy := energyProduction - energyUse
          let maxBatteryPower :=
            if P.batteryEnergy + st.accumulatedEnergy + netEnergy ≥ P.batteryCapacity
                ∧ netEnergy > 0 then
              min P.batteryChargeLimit
                ((P.batteryCapacity - (P.batteryEnergy + st.accumulatedEnergy)) / periodHours * 1000)
            else min P.batteryChargeLimit P.maxBatteryPowerTarget
          let maxIntakeEnergy := maxBatteryPower / 1000 * periodHours
          let addedBatteryEnergy := min maxIntakeEnergy netEnergy
          let accumulatedEnergy := st.accumulatedEnergy + addedBatteryEnergy
          let newBatteryEnergy2 := max 0 (min P.batteryCapacity (P.batteryEnergy + accumulatedEnergy))
          let feedin := (netEnergy - addedBatteryEnergy) * 1000 / periodHours
          let batteryPower := min maxBatteryPower (netEnergy / periodHours * 1000 - feedin)
          -- lines 1131-1141: grid draw and force-charge override
          let bp1 : ℝ × ℝ :=
            if (P.batteryEnergy + accumulatedEnergy ≤ 1 ∨ inverterMode = InverterMode.off
                ∨ inverterMode = InverterMode.chargerOnly) ∧ batteryPower < 0 then
              (0, -batteryPower)
            else (batteryPower, max 0 (powerDraw - powerProduction))
          let bp? : Option (ℝ × ℝ) :=
            if (inverterMode = InverterMode.on ∨ inverterMode = InverterMode.chargerOnly)
                ∧ isForceCharging = some true then
              match chargePowerLimit with
              | some cpl => some (cpl, cpl + powerDraw - powerProduction)
              | none => none
            else some bp1
          match bp? with
          | none => none
          | some bp =>
            -- lines 1150-1164: extremum tracking
            let mf1 : ℝ × Dt :=
              if feedin > st.maxFeedin then (powerProduction - powerDraw, start)
              else (st.maxFeedin, st.tMaxFeedin)
            let mn1 : ℝ × Dt :=
              if newBatteryEnergy2 < st.minForecastBattery then (newBatteryEnergy2, start)
              else (st.minForecastBattery, st.tMinBat)
            let mx1 : ℝ × Dt :=
              if newBatteryEnergy2 > st.maxForecastBattery then
                (newBatteryEnergy2, Dt.addMinutes start periodMinutes)
              else (st.maxForecastBattery, st.tMaxBat)
            let mpft1 : ℝ × Dt :=
              if mf1.1 > st.maxPvFeedinTarget
                  ∧ (st.maxPvFeedinTarget > 0 ∨ (mf1.2).day = start.day) then
                (mf1.1, start)
              else (st.maxPvFeedinTarget, mf1.2)
            -- lines 1166-1188: append the detail entry
            let e : ForecastEntry := {
              period_start := start
              pv_estimate := powerProduction
              battery_energy := newBatteryEnergy2
              house_power := housePower
              setpoint := thisSetpoint
              power_draw := powerDraw
              energy_use := energyUse
              energy_production := energyProduction
              free_capacity := freeCapacity
              accumulated_energy := accumulatedEnergy
              feedin := feedin
              price := price
              battery_power := bp.1
              setpoint_spread := P.setpointSpread
              ev_energy := evEnergy3
              ev_charge_power := evChargePower
              excess_target := excessTarget
              surplus := surplus
              power_from_grid := bp.2 }
            some {
              evRequiredSoc := evRequiredSoc
              evSoc := evSoc
              smartChargeLimit := smartChargeLimit
              nextDriveEvent := nde
              isChargingEv := isChargingEv
              chargePhases := chargePhases
              chargeCurrent := chargeCurrent
              accumulatedEnergy := accumulatedEnergy
              evEnergy := evEnergy3
              surplus := surplus
              maxFeedin := mf1.1
              minForecastBattery := mn1.1
              maxForecastBattery := mx1.1
              tMinBat := mn1.2
              tMaxBat := mx1.2
              tMaxFeedin := mpft1.2
              maxPvFeedinTarget := mpft1.1
              detail := st.detail ++ [e] }

/-- `forecast_setpoint` (energy.py lines 897-1207).  `none` models an
uncaught Python exception (the `assert` of line 940, the
`forecast[1]` IndexError of line 975 for fewer than two periods, or
an exception inside the loop). -/
def forecast_setpoint (P : FSParams) (forecast : List PVForecastWithPrices) :
    Option SetpointResult :=
  let prices := forecast.map (fun el => max P.minFeedinPrice el.price_per_kwh)
  let pricesMean := if prices.length > 0 then prices.sum / (prices.length : ℝ) else 0
  let pricesStd :=
    if prices.length > 0 then
      Real.sqrt ((prices.map (fun p => (p - pricesMean) ^ 2)).sum / (prices.length : ℝ))
    else 0
  if P.withEvCharging = true ∧ P.evEnergy = none then none
  else
    let nextDrive : Option EVScheduleEntry :=
      match P.evSchedule with
      | some sched => findFirst (fun s => s.start.t > P.tNow.t) sched
      | none => none
    match forecast with
    | f0 :: f1 :: _ =>
      let fullPeriodMinutes := (f1.period_start.t - f0.period_start.t) * 60
      -- line 956: `surplus_energy or get(House.energy_surplus, 0)`
      let surplus0 :=
        match P.surplusEnergy with
        | some s => if s = 0 then P.houseEnergySurplus else s
        | none => P.houseEnergySurplus
      let st0 : FSState := {
        evRequiredSoc := P.evRequiredSoc0
        evSoc := P.evSoc0
        smartChargeLimit := 80
        nextDriveEvent := none
        isChargingEv := P.chargerControlSwitch
        chargePhases := 1
        chargeCurrent := 7
        accumulatedEnergy := 0
        evEnergy := P.evEnergy
        surplus := surplus0
        maxFeedin := 0
        minForecastBattery := P.batteryEnergy
        maxForecastBattery := P.batteryEnergy
        tMinBat := P.tNow
        tMaxBat := P.tNow
        tMaxFeedin := P.tNow
        maxPvFeedinTarget := P.maxPvFeedinTarget
        detail := [] }
      (List.foldlM
          (fun st entry => fsStep P pricesMean pricesStd fullPeriodMinutes nextDrive st entry)
          st0 forecast).map fun stF => {
        setpoint := P.setpoint
        min_bat := stF.minForecastBattery
        t_min_bat := stF.tMinBat
        max_bat := stF.maxForecastBattery
        t_max_bat := stF.tMaxBat
        max_feedin := stF.maxFeedin
        t_max_feedin := stF.tMaxFeedin
        setpoint_spread := P.setpointSpread
        prices_mean := pricesMean
        prices_std := pricesStd
        max_battery_power_target := P.maxBatteryPowerTarget
        detail := stF.detail }
    | _ => none

/-! ### energy.py: the two handler cycles (modelled as write traces)

A cycle is modelled as a function from its environment (the values its
`get(...)`/`get_attr(...)` reads return, plus the already-parsed inputs
produced by the excluded collaborator functions `get_pv_forecast_with_prices`
and `get_ev_schedule`/`parse_full_schedule`) to `Option` of the list of
`(state point, value)` writes it performs; `none` models an uncaught
exception (which also writes nothing). -/

/-- Exact characterization of the target-reached branch of
`_get_charge_action`: it is taken (and its result returned) precisely
when no energy is needed and the adjusted surplus is at most 1. -/
lemma charge_action_targetReached_iff (next_drive : Option Dt)
    (current_soc required_soc energy_needed excess_power excess_target
      surplus_energy smart_charge_limit : ℝ)
    (smart_limiter_active : Bool) (configured_phases configured_current : ℝ)
    (is_low_price_in : Bool) (pv_total_power battery_soc hysteresis : ℝ)
    (is_charging : Bool) (t_now : Dt)
    (victron_mode_on battery_force_charge_switch : Bool) :
    get_charge_action next_drive current_soc required_soc energy_needed excess_power
        excess_target surplus_energy smart_charge_limit smart_limiter_active
        configured_phases configured_current is_low_price_in pv_total_power battery_soc
        hysteresis is_charging t_now victron_mode_on battery_force_charge_switch =
        ⟨CA.off, 1, 6, CAReason.targetReached⟩ ↔
      energy_needed ≤ 0 ∧
        (hysteresisAdjust is_charging smart_charge_limit (surplus_energy - 3)
          excess_target).2.1 ≤ 1 := by
  unfold get_charge_action
  dsimp only
  split_ifs with h1 <;>
    first
      | exact iff_of_true rfl h1
      | exact iff_of_false (by simp [CAResult.mk.injEq]) h1

/-! ## C1: bounds of `map_setpoint` -/

/-- C1, counterexample: with `max_feedin = 0` (and `surplus_pv = 0`) the
value returned by `map_setpoint` is 0, which is not `≤ min_setpoint = -20`:
the claimed upper bound does not hold for every `maxFeedin`. -/
theorem c1_counterexample :
    ¬(map_setpoint (-100) 0.1 0.1 0 5 2 0 0 0 1 (-20) (-20) 4000 ≤ -20) := by
  intro h
  have h2 : -((0 : ℝ) + surplusPv 0 0 4000) ≤
      map_setpoint (-100) 0.1 0.1 0 5 2 0 0 0 1 (-20) (-20) 4000 := by
    simp only [map_setpoint]
    exact le_max_left _ _
  have h3 : surplusPv 0 0 4000 = 0 := by norm_num [surplusPv]
  rw [h3] at h2
  norm_num at h2
  linarith

/-- C1 (amended): the returned value is always at least
`-(maxFeedin + surplusPv)`, and it is at most `minSetpoint` whenever
`-(maxFeedin + surplusPv) ≤ minSetpoint` (in particular for the default
`maxFeedin = 4000`, `minSetpoint = -20`, since `surplusPv ≥ 0`). -/
theorem c1_setpoint_bounds (setpoint price prices_mean prices_std battery_energy
    battery_min_limit pv_power house_power max_feedin setpoint_spread
    min_setpoint max_setpoint max_battery_power_target : ℝ) :
    (-(max_feedin + surplusPv pv_power house_power max_battery_power_target) ≤ min_setpoint →
      map_setpoint setpoint price prices_mean prices_std battery_energy battery_min_limit
        pv_power house_power max_feedin setpoint_spread min_setpoint max_setpoint
        max_battery_power_target ≤ min_setpoint)
    ∧ -(max_feedin + surplusPv pv_power house_power max_battery_power_target) ≤
      map_setpoint setpoint price prices_mean prices_std battery_energy battery_min_limit
        pv_power house_power max_feedin setpoint_spread min_setpoint max_setpoint
        max_battery_power_target := by
  constructor
  · intro h
    simp only [map_setpoint]
    exact max_le h (min_le_left _ _)
  · simp only [map_setpoint]
    exact le_max_left _ _

/-- C1 witness: the amended bound instantiated at the defaults. -/
theorem c1_witness :
    (map_setpoint (-100) 0.1 0.1 0 5 2 0 0 4000 1 (-20) (-20) 4000 ≤ -20)
    ∧ -((4000 : ℝ) + surplusPv 0 0 4000) ≤
      map_setpoint (-100) 0.1 0.1 0 5 2 0 0 4000 1 (-20) (-20) 4000 := by
  refine ⟨(c1_setpoint_bounds (-100) 0.1 0.1 0 5 2 0 0 4000 1 (-20) (-20) 4000).1 ?_,
    (c1_setpoint_bounds (-100) 0.1 0.1 0 5 2 0 0 4000 1 (-20) (-20) 4000).2⟩
  norm_num [surplusPv]

/-! ## C5: target-reached short circuit -/

/-- C5: with `energy_needed = 0` and `surplus_energy = 0`,
`_get_charge_action` returns the target-reached "off" result whatever
every other input is. -/
theorem c5_target_reached_short_circuit (next_drive : Option Dt)
    (current_soc required_soc excess_power excess_target smart_charge_limit : ℝ)
    (smart_limiter_active : Bool) (configured_phases configured_current : ℝ)
    (is_low_price_in : Bool) (pv_total_power battery_soc hysteresis : ℝ)
    (is_charging : Bool) (t_now : Dt)
    (victron_mode_on battery_force_charge_switch : Bool) :
    get_charge_action next_drive current_soc required_soc 0 excess_power
      excess_target 0 smart_charge_limit smart_limiter_active configured_phases
      configured_current is_low_price_in pv_total_power battery_soc hysteresis
      is_charging t_now victron_mode_on battery_force_charge_switch =
      ⟨CA.off, 1, 6, CAReason.targetReached⟩ := by
  rw [charge_action_targetReached_iff]
  refine ⟨le_refl 0, ?_⟩
  unfold hysteresisAdjust
  split_ifs <;> norm_num

/-! ## C10: surplus thresholds of the target-reached branch -/

/-- C10: `_get_charge_action` subtracts 3 kWh from the passed surplus
before the ladder (and 2 more in the not-charging hysteresis case), so
with `energy_needed ≤ 0` the target-reached branch fires exactly for a
passed surplus `≤ 4` (exactly for `≤ 6` when not charging with smart
limit below 100), not only for surplus `≤ 1`. -/
theorem c10_surplus_threshold (next_drive : Option Dt)
    (current_soc required_soc energy_needed excess_power excess_target
      surplus_energy smart_charge_limit : ℝ)
    (smart_limiter_active : Bool) (configured_phases configured_current : ℝ)
    (is_low_price_in : Bool) (pv_total_power battery_soc hysteresis : ℝ)
    (is_charging : Bool) (t_now : Dt)
    (victron_mode_on battery_force_charge_switch : Bool)
    (hen : energy_needed ≤ 0) :
    ((is_charging = true ∨ 100 ≤ smart_charge_limit) →
      (get_charge_action next_drive current_soc required_soc energy_needed excess_power
          excess_target surplus_energy smart_charge_limit smart_limiter_active
          configured_phases configured_current is_low_price_in pv_total_power battery_soc
          hysteresis is_charging t_now victron_mode_on battery_force_charge_switch =
          ⟨CA.off, 1, 6, CAReason.targetReached⟩ ↔ surplus_energy ≤ 4))
    ∧ (is_charging = false ∧ smart_charge_limit < 100 →
      (get_charge_action next_drive current_soc required_soc energy_needed excess_power
          excess_target surplus_energy smart_charge_limit smart_limiter_active
          configured_phases configured_current is_low_price_in pv_total_power battery_soc
          hysteresis is_charging t_now victron_mode_on battery_force_charge_switch =
          ⟨CA.off, 1, 6, CAReason.targetReached⟩ ↔ surplus_energy ≤ 6)) := by
  constructor
  · intro hcase
    rw [charge_action_targetReached_iff]
    have hadj : (hysteresisAdjust is_charging smart_charge_limit (surplus_energy - 3)
        excess_target).2.1 = surplus_energy - 3 := by
      unfold hysteresisAdjust
      rw [if_neg]
      rcases hcase with h | h
      · simp [h]
      · intro hc
        linarith [hc.2]
    rw [hadj]
    constructor
    · intro h
      linarith [h.2]
    · intro h
      exact ⟨hen, by linarith⟩
  · intro hcase
    rw [charge_action_targetReached_iff]
    have hadj : (hysteresisAdjust is_charging smart_charge_limit (surplus_energy - 3)
        excess_target).2.1 = surplus_energy - 3 - 2 := by
      unfold hysteresisAdjust
      rw [if_pos hcase]
    rw [hadj]
    constructor
    · intro h
      linarith [h.2]
    · intro h
      exact ⟨hen, by linarith⟩

/-- C10 witness: with `energy_needed = 0`, a passed surplus of 4 while
charging still returns the target-reached "off" result. -/
theorem c10_witness :
    get_charge_action (none : Option Dt) 50 80 0 0 0 4 80 false 1 6 false 0 50 500 true
      ⟨0, 0, 0, 0⟩ false false = ⟨CA.off, 1, 6, CAReason.targetReached⟩ :=
  ((c10_surplus_threshold none 50 80 0 0 0 4 80 false 1 6 false 0 50 500 true
    ⟨0, 0, 0, 0⟩ false false (le_refl 0)).1 (Or.inl rfl)).mpr (by norm_num)

/-! ## C6: emergency-charge override -/

/-- C6: with the next drive one hour away, positive energy need, the
current SOC ten points below the required SOC, and the smart limiter not
forcing a stop (on the hysteresis-adjusted values), `_get_charge_action`
returns "on" with 3 phases at maximum current, whatever the price class,
excess power, excess target and surplus are. -/
theorem c6_emergency_override (nd t_now : Dt)
    (current_soc required_soc energy_needed excess_power excess_target
      surplus_energy smart_charge_limit : ℝ)
    (smart_limiter_active : Bool) (configured_phases configured_current : ℝ)
    (is_low_price_in : Bool) (pv_total_power battery_soc hysteresis : ℝ)
    (is_charging : Bool) (victron_mode_on battery_force_charge_switch : Bool)
    (hnd : nd.t - t_now.t = 1)
    (hen : 0 < energy_needed)
    (hcs : current_soc = required_soc - 10)
    (hstop : ¬(smartLimiterAfter
        (hysteresisAdjust is_charging smart_charge_limit (surplus_energy - 3)
          excess_target).1 smart_limiter_active = true ∧
      current_soc > (hysteresisAdjust is_charging smart_charge_limit (surplus_energy - 3)
          excess_target).1)) :
    get_charge_action (some nd) current_soc required_soc energy_needed excess_power
      excess_target surplus_energy smart_charge_limit smart_limiter_active
      configured_phases configured_current is_low_price_in pv_total_power battery_soc
      hysteresis is_charging t_now victron_mode_on battery_force_charge_switch =
      ⟨CA.on, 3, max_current, CAReason.emergencyCharge⟩ := by
  unfold get_charge_action
  rw [if_neg (by intro h; linarith [h.1]), if_neg hstop, if_pos]
  refine ⟨Or.inl ?_, by linarith⟩
  show nd.t - t_now.t < 2
  rw [hnd]
  norm_num

/-- C6 witness: the emergency override at a concrete input (high price,
negative excess, smart limiter inactive). -/
theorem c6_witness :
    get_charge_action (some ⟨25, 0, 1, 0⟩) 70 80 6 (-2000) 1000 0 80 false 1 6 false 0 50
      500 false ⟨24, 0, 0, 0⟩ false false = ⟨CA.on, 3, max_current, CAReason.emergencyCharge⟩ := by
  refine c6_emergency_override ⟨25, 0, 1, 0⟩ ⟨24, 0, 0, 0⟩ 70 80 6 (-2000) 1000 0 80 false
    1 6 false 0 50 500 false false false (by norm_num) (by norm_num) (by norm_num) ?_
  unfold hysteresisAdjust smartLimiterAfter
  norm_num

/-! ## C8: force-charge override of the inverter mode -/

/-- C8: whenever the price is below the max-charge price and the battery
SOC is below both the target and the charge-limit percentage,
`get_auto_inverter_mode` returns mode On with the force-charge switch
enabled and a 3000 W charge limit, overriding the earlier branches;
otherwise, if the force-charge switch was on, it returns switch state
`False` and charge limit `-1`. -/
theorem c8_force_charge (ev_is_charging : Bool)
    (surplus_energy pv_power daily_avg_power battery_soc target_soc
      electricity_price min_discharge_price max_charge_price charge_limit_percent : ℝ)
    (force_charge_switch : Bool) :
    (electricity_price < max_charge_price ∧ battery_soc < target_soc
        ∧ battery_soc < charge_limit_percent →
      get_auto_inverter_mode ev_is_charging surplus_energy pv_power daily_avg_power
        battery_soc target_soc electricity_price min_discharge_price max_charge_price
        charge_limit_percent force_charge_switch =
        (InverterMode.on, some 3000, some true, IMReason.forceCharge))
    ∧ (¬(electricity_price < max_charge_price ∧ battery_soc < target_soc
        ∧ battery_soc < charge_limit_percent) → force_charge_switch = true →
      (get_auto_inverter_mode ev_is_charging surplus_energy pv_power daily_avg_power
        battery_soc target_soc electricity_price min_discharge_price max_charge_price
        charge_limit_percent force_charge_switch).2.1 = some (-1)
      ∧ (get_auto_inverter_mode ev_is_charging surplus_energy pv_power daily_avg_power
        battery_soc target_soc electricity_price min_discharge_price max_charge_price
        charge_limit_percent force_charge_switch).2.2.1 = some false) := by
  constructor
  · intro h
    unfold get_auto_inverter_mode
    rw [if_pos h]
  · intro h hf
    unfold get_auto_inverter_mode
    rw [if_neg h, if_pos hf]
    exact ⟨rfl, rfl⟩

/-- C8 witness: both cases at concrete inputs. -/
theorem c8_witness :
    get_auto_inverter_mode false 0 0 0 40 60 0.1 0 0.2 70 false =
      (InverterMode.on, some 3000, some true, IMReason.forceCharge)
    ∧ (get_auto_inverter_mode false 0 0 0 40 60 0.3 0 0.2 70 true).2.1 = some (-1)
    ∧ (get_auto_inverter_mode false 0 0 0 40 60 0.3 0 0.2 70 true).2.2.1 = some false := by
  refine ⟨(c8_force_charge false 0 0 0 40 60 0.1 0 0.2 70 false).1 (by norm_num), ?_⟩
  exact (c8_force_charge false 0 0 0 40 60 0.3 0 0.2 70 true).2 (by norm_num) rfl

/-! ## C2: battery energy clamp -/

/-- Every detail entry a simulation step appends records a battery energy
of the clamped form `max 0 (min capacity _)`; entries already present are
kept unchanged. -/
lemma fsStep_detail_bound (P : FSParams) (pricesMean pricesStd fullPeriodMinutes : ℝ)
    (nextDrive : Option EVScheduleEntry) (st st' : FSState)
    (entry : PVForecastWithPrices)
    (hcap : 0 ≤ P.batteryCapacity)
    (hstep : fsStep P pricesMean pricesStd fullPeriodMinutes nextDrive st entry = some st') :
    ∀ e ∈ st'.detail,
      e ∈ st.detail ∨ (0 ≤ e.battery_energy ∧ e.battery_energy ≤ P.batteryCapacity) := by
  intro e he
  unfold fsStep at hstep
  dsimp only at hstep
  split at hstep
  · cases hstep
    exact Or.inl he
  · split at hstep
    · cases hstep
    · split at hstep
      · cases hstep
      · split at hstep
        · cases hstep
        · split at hstep
          · cases hstep
          · cases hstep
            rcases List.mem_append.mp he with hmem | hmem
            · exact Or.inl hmem
            · rcases List.mem_singleton.mp hmem with rfl
              exact Or.inr ⟨le_max_left _ _, max_le hcap (min_le_left _ _)⟩

/-- Preservation of an invariant along `List.foldlM` over `Option`. -/
lemma foldlM_option_inv {α σ : Type} (f : σ → α → Option σ) (Inv : σ → Prop)
    (hstep : ∀ s a s', f s a = some s' → Inv s → Inv s') :
    ∀ (l : List α) (s s' : σ), List.foldlM f s l = some s' → Inv s → Inv s' := by
  intro l
  induction l with
  | nil =>
    intro s s' h hi
    simp only [List.foldlM_nil, pure, Option.some.injEq] at h
    rwa [← h]
  | cons a t ih =>
    intro s s' h hi
    rw [List.foldlM_cons] at h
    cases hfa : f s a with
    | none => rw [hfa] at h; cases h
    | some s1 =>
      rw [hfa] at h
      exact ih s1 s' h (hstep s a s1 hfa hi)

/-- C2: in every simulation run of `forecast_setpoint` started with
`0 ≤ batteryEnergy ≤ batteryCapacity` and `batteryCapacity > 0`, the
`battery_energy` recorded in every appended `ForecastEntry` satisfies
`0 ≤ battery_energy ≤ batteryCapacity`. -/
theorem c2_battery_energy_clamped (P : FSParams) (forecast : List PVForecastWithPrices)
    (r : SetpointResult)
    (_h0 : 0 ≤ P.batteryEnergy) (_h1 : P.batteryEnergy ≤ P.batteryCapacity)
    (h2 : 0 < P.batteryCapacity)
    (hr : forecast_setpoint P forecast = some r) :
    ∀ e ∈ r.detail, 0 ≤ e.battery_energy ∧ e.battery_energy ≤ P.batteryCapacity := by
  unfold forecast_setpoint at hr
  dsimp only at hr
  split at hr
  · cases hr
  · rcases forecast with _ | ⟨f0, _ | ⟨f1, rest⟩⟩
    · cases hr
    · cases hr
    · rw [Option.map_eq_some'] at hr
      obtain ⟨stF, hfold, hfr⟩ := hr
      rw [← hfr]
      intro e he
      have h := foldlM_option_inv _
        (fun st => ∀ x ∈ st.detail, 0 ≤ x.battery_energy ∧ x.battery_energy ≤ P.batteryCapacity)
        ?_ (f0 :: f1 :: rest) _ _ hfold ?_
      · exact h e he
      · intro s a s' hs hi x hx
        rcases fsStep_detail_bound P _ _ _ _ s s' a (le_of_lt h2) hs x hx with hmem | hb
        · exact hi x hmem
        · exact hb
      · intro x hx
        cases hx

/-! ## C3: the stored setpoint versus the mapped setpoint -/

/-- Field characterization of a successful `evUpdate`: the stored
setpoint component is -20 when the charge power is above 1 W and the
mapped setpoint otherwise. -/
lemma evUpdate_fields (i : Bool) (p0 scl ph : ℝ) (ev : Option ℝ) (ms es cap be : ℝ)
    (t : Option ℝ × ℝ × ℝ × ℝ × ℝ)
    (h : evUpdate i p0 scl ph ev ms es cap be = some t) :
    (1 < t.2.2.2.2 → t.2.2.1 = -20) ∧ (t.2.2.2.2 ≤ 1 → t.2.2.1 = ms) := by
  unfold evUpdate at h
  split_ifs at h with hc
  · cases ev with
    | none => cases h
    | some ee =>
      cases h
      exact ⟨fun _ => rfl, fun hle => absurd hc.2 (not_lt.mpr hle)⟩
  · cases h
    exact ⟨fun h1 => absurd h1 (by norm_num), fun _ => rfl⟩

/-- C3 (amended): in every simulated period the recorded setpoint equals
the value of the Gaussian mapping `map_setpoint` applied to that
period's price, (pre-update) battery energy, PV power and house power —
except in a period where the EV charges (recorded charge power above
1 W), where the recorded setpoint is the constant -20 instead. -/
theorem c3_amended_setpoint_override (P : FSParams)
    (pricesMean pricesStd fullPeriodMinutes : ℝ) (nextDrive : Option EVScheduleEntry)
    (st st' : FSState) (entry : PVForecastWithPrices) (e : ForecastEntry)
    (hstep : fsStep P pricesMean pricesStd fullPeriodMinutes nextDrive st entry = some st')
    (happ : st'.detail = st.detail ++ [e]) :
    (1 < e.ev_charge_power → e.setpoint = -20)
    ∧ (e.ev_charge_power ≤ 1 →
        e.setpoint = map_setpoint P.setpoint (max P.minFeedinPrice entry.price_per_kwh)
          pricesMean pricesStd
          (min (max 0 (P.batteryEnergy + st.accumulatedEnergy)) P.batteryCapacity)
          P.batteryMinEnergy (entry.pv_estimate * P.forecastDampening * 1000)
          e.house_power 4000 P.setpointSpread (-20) P.maxSetpoint
          P.maxBatteryPowerTarget) := by
  unfold fsStep at hstep
  dsimp only at hstep
  split at hstep
  · cases hstep
    exact absurd (congrArg List.length happ) (by simp)
  · split at hstep
    · cases hstep
    · split at hstep
      · cases hstep
      · split at hstep
        · cases hstep
        · split at hstep
          · cases hstep
          · cases hstep
            rename_i cq cc hcc evq evT hev ev2q ev2 hev2 bpq bp hbp
            dsimp only at happ
            have hbe : _ = e := ((List.cons.injEq _ _ _ _).mp
              (List.append_cancel_left happ)).1
            rw [← hbe]
            dsimp only
            exact evUpdate_fields _ _ _ _ _ _ _ _ _ _ hev

/-! ## C7: max feed-in tracking -/

/-- The per-period update of the running maximum feed-in: when the
period's recorded feed-in strictly exceeds the running maximum, the
maximum becomes `power_production - power_draw` (not the recorded
feed-in) and its timestamp the period start; on a value not exceeding
the maximum (equality included), and with the running maximum not above
the running feed-in target, maximum, timestamp and target are all kept. -/
lemma fsStep_maxFeedin (P : FSParams)
    (pricesMean pricesStd fullPeriodMinutes : ℝ) (nextDrive : Option EVScheduleEntry)
    (st st' : FSState) (entry : PVForecastWithPrices) (e : ForecastEntry)
    (hstep : fsStep P pricesMean pricesStd fullPeriodMinutes nextDrive st entry = some st')
    (happ : st'.detail = st.detail ++ [e]) :
    (st.maxFeedin < e.feedin →
      st'.maxFeedin = e.pv_estimate - e.power_draw ∧ st'.tMaxFeedin = e.period_start)
    ∧ (e.feedin ≤ st.maxFeedin →
      st'.maxFeedin = st.maxFeedin ∧
        (st.maxFeedin ≤ st.maxPvFeedinTarget →
          st'.tMaxFeedin = st.tMaxFeedin ∧ st'.maxPvFeedinTarget = st.maxPvFeedinTarget)) := by
  unfold fsStep at hstep
  dsimp only at hstep
  split at hstep
  · cases hstep
    exact absurd (congrArg List.length happ) (by simp)
  · split at hstep
    · cases hstep
    · split at hstep
      · cases hstep
      · split at hstep
        · cases hstep
        · split at hstep
          · cases hstep
          · cases hstep
            rename_i cq cc hcc evq evT hev ev2q ev2 hev2 bpq bp hbp
            dsimp only at happ
            have hbe : _ = e := ((List.cons.injEq _ _ _ _).mp
              (List.append_cancel_left happ)).1
            rw [← hbe]
            dsimp only
            constructor
            · intro hgt
              rw [if_pos hgt]
              constructor
              · rfl
              · split_ifs <;> rfl
            · intro hle
              rw [if_neg (not_lt.mpr hle)]
              refine ⟨rfl, fun hmp => ?_⟩
              rw [if_neg]
              · exact ⟨rfl, rfl⟩
              · intro hcond
                exact absurd hcond.1 (not_lt.mpr hmp)

/-- Pure shape of the feed-in extremum tracking of lines 1150-1164: it
preserves "running maximum at most the running target, target positive". -/
lemma feedin_track_inv (f v mf mpft : ℝ) (told tS : Dt)
    (hmf : mf ≤ mpft) (hmp : 0 < mpft) :
    (if f > mf then (v, tS) else (mf, told)).1 ≤
      (if (if f > mf then (v, tS) else (mf, told)).1 > mpft
          ∧ (mpft > 0 ∨ ((if f > mf then (v, tS) else (mf, told)).2).day = tS.day) then
        ((if f > mf then (v, tS) else (mf, told)).1, tS)
      else (mpft, (if f > mf then (v, tS) else (mf, told)).2)).1
    ∧ 0 < (if (if f > mf then (v, tS) else (mf, told)).1 > mpft
          ∧ (mpft > 0 ∨ ((if f > mf then (v, tS) else (mf, told)).2).day = tS.day) then
        ((if f > mf then (v, tS) else (mf, told)).1, tS)
      else (mpft, (if f > mf then (v, tS) else (mf, told)).2)).1 := by
  split_ifs with h1 h2 h3
  · exact ⟨le_refl _, lt_trans hmp h2.1⟩
  · refine ⟨?_, hmp⟩
    by_contra hv
    exact h2 ⟨lt_of_not_le hv, Or.inl hmp⟩
  · exact absurd h3.1 (not_lt.mpr hmf)
  · exact ⟨hmf, hmp⟩

/-- Preservation of `maxFeedin ≤ maxPvFeedinTarget ∧ 0 < maxPvFeedinTarget`
by one simulation step. -/
lemma fsStep_feedin_inv (P : FSParams)
    (pricesMean pricesStd fullPeriodMinutes : ℝ) (nextDrive : Option EVScheduleEntry)
    (st st' : FSState) (entry : PVForecastWithPrices)
    (hstep : fsStep P pricesMean pricesStd fullPeriodMinutes nextDrive st entry = some st')
    (hinv : st.maxFeedin ≤ st.maxPvFeedinTarget ∧ 0 < st.maxPvFeedinTarget) :
    st'.maxFeedin ≤ st'.maxPvFeedinTarget ∧ 0 < st'.maxPvFeedinTarget := by
  unfold fsStep at hstep
  dsimp only at hstep
  split at hstep
  · cases hstep
    exact hinv
  · split at hstep
    · cases hstep
    · split at hstep
      · cases hstep
      · split at hstep
        · cases hstep
        · split at hstep
          · cases hstep
          · cases hstep
            dsimp only
            exact feedin_track_inv _ _ _ _ _ _ hinv.1 hinv.2

/-- C7 (amended): `max_feedin` is updated exactly in the periods whose
recorded feed-in strictly exceeds the running maximum — but to the
period's `power_production - power_draw` (the recorded feed-in plus the
power absorbed by the battery), not to the recorded feed-in itself —
and `t_max_feedin` becomes that period's start; a later period whose
feed-in merely equals the running maximum changes neither the maximum,
nor its timestamp, nor the running feed-in target, because along every
run started with `max_pv_feedin_target > 0` the running maximum never
exceeds the running feed-in target. -/
theorem c7_amended_max_feedin :
    (∀ (P : FSParams) (pricesMean pricesStd fullPeriodMinutes : ℝ)
      (nextDrive : Option EVScheduleEntry) (st st' : FSState)
      (entry : PVForecastWithPrices) (e : ForecastEntry),
      fsStep P pricesMean pricesStd fullPeriodMinutes nextDrive st entry = some st' →
      st'.detail = st.detail ++ [e] → st.maxFeedin < e.feedin →
      st'.maxFeedin = e.pv_estimate - e.power_draw ∧ st'.tMaxFeedin = e.period_start)
    ∧ (∀ (P : FSParams) (pricesMean pricesStd fullPeriodMinutes : ℝ)
      (nextDrive : Option EVScheduleEntry) (st st' : FSState)
      (entry : PVForecastWithPrices) (e : ForecastEntry),
      fsStep P pricesMean pricesStd fullPeriodMinutes nextDrive st entry = some st' →
      st'.detail = st.detail ++ [e] → e.feedin ≤ st.maxFeedin →
      st.maxFeedin ≤ st.maxPvFeedinTarget →
      st'.maxFeedin = st.maxFeedin ∧ st'.tMaxFeedin = st.tMaxFeedin
        ∧ st'.maxPvFeedinTarget = st.maxPvFeedinTarget)
    ∧ (∀ (P : FSParams) (pricesMean pricesStd fullPeriodMinutes : ℝ)
      (nextDrive : Option EVScheduleEntry) (l : List PVForecastWithPrices)
      (st st' : FSState),
      List.foldlM
        (fun s entry => fsStep P pricesMean pricesStd fullPeriodMinutes nextDrive s entry)
        st l = some st' →
      st.maxFeedin ≤ st.maxPvFeedinTarget → 0 < st.maxPvFeedinTarget →
      st'.maxFeedin ≤ st'.maxPvFeedinTarget ∧ 0 < st'.maxPvFeedinTarget) := by
  refine ⟨?_, ?_, ?_⟩
  · intro P pm ps fpm nd st st' entry e hstep happ hgt
    exact (fsStep_maxFeedin P pm ps fpm nd st st' entry e hstep happ).1 hgt
  · intro P pm ps fpm nd st st' entry e hstep happ hle hmp
    obtain ⟨h1, h2⟩ := (fsStep_maxFeedin P pm ps fpm nd st st' entry e hstep happ).2 hle
    exact ⟨h1, (h2 hmp).1, (h2 hmp).2⟩
  · intro P pm ps fpm nd l st st' hfold h1 h2
    exact foldlM_option_inv _
      (fun s => s.maxFeedin ≤ s.maxPvFeedinTarget ∧ 0 < s.maxPvFeedinTarget)
      (fun s a s' hs hi => fsStep_feedin_inv P pm ps fpm nd s s' a hs hi)
      l st st' hfold ⟨h1, h2⟩

/-! ## C9: aborted cycles write nothing -/

lemma gaussian_ratio_eq (x m s : ℝ) (hs : 0 < s) :
    gaussian x m s / gaussian 0 0 s = Real.exp (-0.5 * ((x - m) / s) ^ 2) := by
  unfold gaussian
  have hd : (0 : ℝ) < s * Real.sqrt (2 * Real.pi) := by positivity
  rw [show (-0.5 * ((0 - 0) / s) ^ 2 : ℝ) = 0 by norm_num, Real.exp_zero]
  field_simp

/-- The normalized gaussian factor of `map_setpoint` lies in `[0, 1]`. -/
lemma gaussian_ratio_le_one (x m s : ℝ) (hs : 0 < s) :
    gaussian x m s / gaussian 0 0 s ≤ 1 ∧ 0 ≤ gaussian x m s / gaussian 0 0 s := by
  rw [gaussian_ratio_eq x m s hs]
  constructor
  · calc Real.exp (-0.5 * ((x - m) / s) ^ 2) ≤ Real.exp 0 :=
      Real.exp_le_exp.mpr (by nlinarith [sq_nonneg ((x - m) / s)])
    _ = 1 := Real.exp_zero
  · exact (Real.exp_pos _).le

/-- The width parameter of the gaussian in `map_setpoint` is positive. -/
lemma map_std_pos (sp ps : ℝ) : 0 < Real.sqrt (max 1e-5 sp) * max 5 (ps * 100) := by
  apply mul_pos
  · exact Real.sqrt_pos.mpr (lt_of_lt_of_le (by norm_num) (le_max_left _ _))
  · exact lt_of_lt_of_le (by norm_num) (le_max_left _ _)

/-- Auxiliary: the final clamp of `map_setpoint` returns exactly -20 when
the gaussian-damped value lies in `[-20, 0]` and the lower clamp is
below -20. -/
lemma map_final_clamp (g A : ℝ) (hg1 : g ≤ 1) (_hg0 : 0 ≤ g) (hA : A ≤ -20) :
    max A (min (-20) (g * -20)) = -20 := by
  rw [min_eq_left (by nlinarith), max_eq_right hA]

/-- With the run setpoint -20, no low-battery override and no PV surplus
beyond the battery power target, `map_setpoint` returns exactly -20. -/
lemma map_setpoint_at_minus20 (price pm ps be bml pv house sp mxs mbpt : ℝ)
    (hbranch : ¬(be < bml + 2 ∧ pv < house))
    (hsp : pv - house - mbpt ≤ 0) :
    map_setpoint (-20) price pm ps be bml pv house 4000 sp (-20) mxs mbpt = -20 := by
  unfold map_setpoint
  dsimp only
  rw [if_neg hbranch]
  rw [show surplusPv pv house mbpt = 0 from max_eq_left hsp]
  rw [if_neg (by norm_num)]
  have hg := gaussian_ratio_le_one
    (if price * 100 > pm * 100 + max 5 (ps * 100) then pm * 100 + max 5 (ps * 100)
      else price * 100)
    (pm * 100 + max 5 (ps * 100)) (Real.sqrt (max 1e-5 sp) * max 5 (ps * 100))
    (map_std_pos sp ps)
  rw [show (-(4000 + 0) : ℝ) = -4000 by norm_num]
  exact map_final_clamp _ _ hg.1 hg.2 (by norm_num)

/-! ## A concrete simulation run (scenario S) -/

def sDrive : EVScheduleEntry := ⟨⟨10, 1, 10, 0⟩, ⟨11, 1, 11, 0⟩, none, some 80⟩

def sF1 : PVForecastWithPrices := ⟨⟨0, 1, 0, 0⟩, 37.5, 0.1⟩

def sF2 : PVForecastWithPrices := ⟨⟨0.5, 1, 0, 30⟩, 0, 0.1⟩

def sParams : FSParams := {
  setpoint := -20
  batteryCapacity := 10
  minFeedinPrice := 0
  forecastDampening := 0.8
  batteryEnergy := 5
  setpointSpread := 1
  batteryMinEnergy := 2
  batteryChargeLimit := 6600
  withEvCharging := true
  evEnergy := some 57
  maxBatteryPowerTarget := 4000
  maxPvFeedinTarget := 1000
  maxSetpoint := -10
  evSchedule := some [sDrive]
  surplusEnergy := some 10
  tNow := ⟨0, 1, 0, 0⟩
  evRequiredSoc0 := 80
  evSoc0 := 60
  smartLimiterActive := false
  dailyPower := 20000
  nightlyPower := 20000
  chargerReady := true
  chargerControlSwitch := false
  forceChargeUpTo := 0
  maxChargePrice := 0
  forceChargeSwitch := false
  minDischargePrice := 0
  houseEnergySurplus := 0
  efficientDischarge := false
  victronModeOn := false }

def sSt0 : FSState := {
  evRequiredSoc := 80
  evSoc := 60
  smartChargeLimit := 80
  nextDriveEvent := none
  isChargingEv := false
  chargePhases := 1
  chargeCurrent := 7
  accumulatedEnergy := 0
  evEnergy := some 57
  surplus := 10
  maxFeedin := 0
  minForecastBattery := 5
  maxForecastBattery := 5
  tMinBat := ⟨0, 1, 0, 0⟩
  tMaxBat := ⟨0, 1, 0, 0⟩
  tMaxFeedin := ⟨0, 1, 0, 0⟩
  maxPvFeedinTarget := 1000
  detail := [] }

def sE1 : ForecastEntry := {
  period_start := ⟨0, 1, 0, 0⟩
  pv_estimate := 30000
  battery_energy := 7
  house_power := 20000
  setpoint := -20
  power_draw := 24160
  energy_use := 12.08
  energy_production := 15
  free_capacity := 43.93
  accumulated_energy := 2
  feedin := 1840
  price := 0.1
  battery_power := 4000
  setpoint_spread := 1
  ev_energy := some 59.07
  ev_charge_power := 4140
  excess_target := -6000
  surplus := 7.93
  power_from_grid := 0 }

def sSt1 : FSState := {
  evRequiredSoc := 80
  evSoc := 98.45
  smartChargeLimit := 98
  nextDriveEvent := some sDrive
  isChargingEv := true
  chargePhases := 3
  chargeCurrent := 6
  accumulatedEnergy := 2
  evEnergy := some 59.07
  surplus := 7.93
  maxFeedin := 5840
  minForecastBattery := 5
  maxForecastBattery := 7
  tMinBat := ⟨0, 1, 0, 0⟩
  tMaxBat := ⟨0.5, 1, 0, 0⟩
  tMaxFeedin := ⟨0, 1, 0, 0⟩
  maxPvFeedinTarget := 5840
  detail := [sE1] }

lemma get_excess_target_floor (bts bs rs : ℝ) (ec : Bool) (nd : Option Dt) (pv es : ℝ)
    (t : Dt) (h : bts - bs ≤ -25) :
    get_excess_target bts bs rs ec nd pv es t false = -6000 := by
  unfold get_excess_target clip
  dsimp only
  have hpi := Real.pi_pos
  have h1 : (-(Real.pi / 2)) ⊔ (((bts - bs) / 100 * 2 * Real.pi) ⊓ (Real.pi / 2)) =
      -(Real.pi / 2) := by
    rw [min_eq_left (by nlinarith), max_eq_left (by nlinarith)]
  rw [h1, Real.sin_neg, Real.sin_pi_div_two]
  norm_num

lemma h_ca1 : get_charge_action (some ⟨10, 1, 10, 0⟩) 60 80 12 10000 (-6000) 10 98 false 1 7
    true 30000 50 500 false ⟨0, 1, 0, 0⟩ false false = ⟨CA.on, 3, 11, CAReason.excessPower⟩ := by
  unfold get_charge_action hysteresisAdjust smartLimiterAfter
    calculate_charger_current_adjustment clip pyRound voltage max_current min_current
  norm_num [Int.fract, round_eq]

lemma sStep1 : fsStep sParams (1 / 10) 0 30 (some sDrive) sSt0 sF1 = some sSt1 := by
  unfold fsStep
  norm_num [sParams, sSt0, sSt1, sF1, sDrive, sE1, findFirst, is_charging_possible,
    smart_charge_limit_of, ev_energy_needed_of, get_price, is_low_price,
    get_auto_inverter_mode, evUpdate, Dt.addMinutes, ev_capacity, get_excess_target_floor,
    h_ca1]
  rfl

def sE2 : ForecastEntry := {
  period_start := ⟨0.5, 1, 0, 30⟩
  pv_estimate := 0
  battery_energy := 0
  house_power := 20000
  setpoint := -20
  power_draw := 20020
  energy_use := 10.01
  energy_production := 0
  free_capacity := 5
  accumulated_energy := -8.01
  feedin := 0
  price := 0.1
  battery_power := 0
  setpoint_spread := 1
  ev_energy := some 59.07
  ev_charge_power := 0
  excess_target := -6000
  surplus := 7.93
  power_from_grid := 20020 }

def sSt2 : FSState := {
  evRequiredSoc := 80
  evSoc := 98.45
  smartChargeLimit := 98
  nextDriveEvent := some sDrive
  isChargingEv := false
  chargePhases := 1
  chargeCurrent := 6
  accumulatedEnergy := -8.01
  evEnergy := some 59.07
  surplus := 7.93
  maxFeedin := 5840
  minForecastBattery := 0
  maxForecastBattery := 7
  tMinBat := ⟨0.5, 1, 0, 30⟩
  tMaxBat := ⟨0.5, 1, 0, 0⟩
  tMaxFeedin := ⟨0, 1, 0, 0⟩
  maxPvFeedinTarget := 5840
  detail := [sE1, sE2] }

lemma hmap2 : map_setpoint (-20) (1 / 10) (1 / 10) 0 7 2 0 20000 4000 1 (-20) (-10) 4000 = -20 :=
  map_setpoint_at_minus20 (1 / 10) (1 / 10) 0 7 2 0 20000 1 (-10) 4000 (by norm_num) (by norm_num)

lemma sStep2 : fsStep sParams (1 / 10) 0 30 (some sDrive) sSt1 sF2 = some sSt2 := by
  unfold fsStep
  norm_num [sParams, sSt1, sSt2, sF2, sDrive, sE1, sE2, findFirst, is_charging_possible,
    smart_charge_limit_of, ev_energy_needed_of, get_price, is_low_price,
    get_auto_inverter_mode, evUpdate, Dt.addMinutes, ev_capacity, get_excess_target_floor,
    hmap2]
  rfl

def sResult : SetpointResult := {
  setpoint := -20
  min_bat := 0
  t_min_bat := ⟨0.5, 1, 0, 30⟩
  max_bat := 7
  t_max_bat := ⟨0.5, 1, 0, 0⟩
  max_feedin := 5840
  t_max_feedin := ⟨0, 1, 0, 0⟩
  setpoint_spread := 1
  prices_mean := 0.1
  prices_std := 0
  max_battery_power_target := 4000
  detail := [sE1, sE2] }

lemma sParams_proj1 : sParams.withEvCharging = true := rfl

lemma sParams_proj2 : sParams.evEnergy = some 57 := rfl

lemma sParams_proj3 : sParams.evSchedule = some [sDrive] := rfl

lemma sParams_proj4 : sParams.tNow = ⟨0, 1, 0, 0⟩ := rfl

lemma sParams_proj5 : sParams.minFeedinPrice = 0 := rfl

lemma sParams_proj6 : sParams.surplusEnergy = some 10 := rfl

lemma sParams_proj7 : sParams.evRequiredSoc0 = 80 := rfl

lemma sParams_proj8 : sParams.evSoc0 = 60 := rfl

lemma sParams_proj9 : sParams.chargerControlSwitch = false := rfl

lemma sParams_proj10 : sParams.batteryEnergy = 5 := rfl

lemma sParams_proj11 : sParams.maxPvFeedinTarget = 1000 := rfl

lemma sParams_proj12 : sParams.setpoint = -20 := rfl

lemma sParams_proj13 : sParams.setpointSpread = 1 := rfl

lemma sParams_proj14 : sParams.maxBatteryPowerTarget = 4000 := rfl

lemma sDrive_proj : sDrive.start.t = 10 := rfl

lemma sF1_proj1 : sF1.price_per_kwh = 0.1 := rfl

lemma sF2_proj1 : sF2.price_per_kwh = 0.1 := rfl

lemma sF1_proj2 : sF1.period_start.t = 0 := rfl

lemma sF2_proj2 : sF2.period_start.t = 0.5 := rfl

lemma sSt0_fold : ({
  evRequiredSoc := 80
  evSoc := 60
  smartChargeLimit := 80
  nextDriveEvent := none
  isChargingEv := false
  chargePhases := 1
  chargeCurrent := 7
  accumulatedEnergy := 0
  evEnergy := some 57
  surplus := 10
  maxFeedin := 0
  minForecastBattery := 5
  maxForecastBattery := 5
  tMinBat := ⟨0, 1, 0, 0⟩
  tMaxBat := ⟨0, 1, 0, 0⟩
  tMaxFeedin := ⟨0, 1, 0, 0⟩
  maxPvFeedinTarget := 1000
  detail := [] } : FSState) = sSt0 := rfl

lemma sRun : forecast_setpoint sParams [sF1, sF2] = some sResult := by
  unfold forecast_setpoint
  dsimp only
  norm_num [sParams_proj1, sParams_proj2, sParams_proj3, sParams_proj4, sParams_proj5,
    sParams_proj6, sParams_proj7, sParams_proj8, sParams_proj9, sParams_proj10,
    sParams_proj11, sParams_proj12, sParams_proj13, sParams_proj14, sDrive_proj,
    sF1_proj1, sF2_proj1, sF1_proj2, sF2_proj2, findFirst, Real.sqrt_zero,
    List.foldlM_cons, List.foldlM_nil, sSt0_fold, sStep1, sStep2, sSt2, sResult]
  exact fun h => Option.noConfusion h

/-! ## Evaluation of the mapping at the period-1 inputs of scenario S -/

/-- Final clamp of `map_setpoint` at the period-1 inputs: with the
gaussian factor in `[0, 1]`, the surplus branch pins the value at the
negated PV surplus -6000. -/
lemma map_cx_clamp (g : ℝ) (hg1 : g ≤ 1) (_hg0 : 0 ≤ g) :
    max (-(4000 + 6000)) (min (-20) (min (g * -20) (-6000))) = (-6000 : ℝ) := by
  have h1 : min (g * -20) (-6000 : ℝ) = -6000 := min_eq_right (by nlinarith)
  rw [h1]
  norm_num

/-- `map_setpoint` at the period-1 inputs of scenario S evaluates to
-6000: the PV surplus beyond the battery power target is 6000 W and the
surplus branch caps the setpoint at its negation. -/
lemma hmap_cx :
    map_setpoint (-20) 0.1 0.1 0 5 2 30000 20000 4000 1 (-20) (-10) 4000 = -6000 := by
  unfold map_setpoint
  dsimp only
  rw [if_neg (show ¬((5 : ℝ) < 2 + 2 ∧ (30000 : ℝ) < 20000) by norm_num)]
  rw [show surplusPv 30000 20000 4000 = 6000 by unfold surplusPv; norm_num]
  rw [if_pos (show (6000 : ℝ) > 0 ∧ (-20 : ℝ) < -10 by norm_num)]
  have hg := gaussian_ratio_le_one
    (if (0.1 : ℝ) * 100 > 0.1 * 100 + max 5 (0 * 100) then 0.1 * 100 + max 5 (0 * 100)
      else 0.1 * 100)
    (0.1 * 100 + max 5 (0 * 100)) (Real.sqrt (max 1e-5 1) * max 5 (0 * 100))
    (map_std_pos 1 0)
  exact map_cx_clamp _ hg.1 hg.2

/-- C3, counterexample: in the two-period run of scenario S the EV
charges during period 1 (charge power 4140 W), the recorded setpoint of
that period is the constant -20, while the Gaussian mapping
`map_setpoint` applied to that period's price, (pre-update) battery
energy, PV power and house power (with the run's spread and limits)
returns -6000: the stored setpoint does not equal the mapped value. -/
theorem c3_counterexample :
    forecast_setpoint sParams [sF1, sF2] = some sResult
    ∧ sResult.detail.head? = some sE1
    ∧ sE1.setpoint = -20
    ∧ 1 < sE1.ev_charge_power
    ∧ max sParams.minFeedinPrice sF1.price_per_kwh = 0.1
    ∧ sResult.prices_mean = 0.1
    ∧ sResult.prices_std = 0
    ∧ min (max 0 (sParams.batteryEnergy + sSt0.accumulatedEnergy)) sParams.batteryCapacity = 5
    ∧ sParams.batteryMinEnergy = 2
    ∧ sF1.pv_estimate * sParams.forecastDampening * 1000 = 30000
    ∧ sE1.house_power = 20000
    ∧ map_setpoint (-20) 0.1 0.1 0 5 2 30000 20000 4000 1 (-20) (-10) 4000 = -6000
    ∧ (-6000 : ℝ) ≠ -20 :=
  ⟨sRun, rfl, rfl, by norm_num [sE1], by norm_num [sParams, sF1],
    by norm_num [sResult], rfl,
    by norm_num [sParams, sSt0], rfl, by norm_num [sParams, sF1],
    rfl, hmap_cx, by norm_num⟩

/-- C3, witness of the amended theorem at the first step of scenario S. -/
theorem c3_witness :
    (1 < sE1.ev_charge_power → sE1.setpoint = -20)
    ∧ (sE1.ev_charge_power ≤ 1 →
        sE1.setpoint = map_setpoint sParams.setpoint
          (max sParams.minFeedinPrice sF1.price_per_kwh) (1 / 10) 0
          (min (max 0 (sParams.batteryEnergy + sSt0.accumulatedEnergy)) sParams.batteryCapacity)
          sParams.batteryMinEnergy (sF1.pv_estimate * sParams.forecastDampening * 1000)
          sE1.house_power 4000 sParams.setpointSpread (-20) sParams.maxSetpoint
          sParams.maxBatteryPowerTarget) :=
  c3_amended_setpoint_override sParams (1 / 10) 0 30 (some sDrive) sSt0 sSt1 sF1 sE1
    sStep1 rfl

/-- C4: in period 1 of scenario S the EV is charged at 4140 W for half
an hour starting from 57 kWh; the smart charge limit derived from the
schedule is 98 (percent), so the smart-limit cap claimed by the spec is
`ev_capacity * 98 / 100 = 58.8` kWh — but the recorded EV energy is
59.07 kWh: the code clamps at the percentage value 98 itself (treated
as kWh), not at the capacity-derived cap, so the recorded energy
exceeds the claimed cap. -/
theorem c4_ev_energy_cap_violation :
    forecast_setpoint sParams [sF1, sF2] = some sResult
    ∧ sResult.detail.head? = some sE1
    ∧ smart_charge_limit_of (some sDrive.start) sF1.period_start false = 98
    ∧ sE1.ev_charge_power = 4140
    ∧ sE1.ev_energy = some 59.07
    ∧ ev_capacity * 98 / 100 < 59.07 :=
  ⟨sRun, rfl,
    by norm_num [smart_charge_limit_of, sDrive, sF1],
    rfl, by norm_num [sE1], by norm_num [ev_capacity]⟩

/-- C7, counterexample: in the two-period run of scenario S the
recorded per-period feed-in values are 1840 and 0 W, whose maximum is
1840, but the returned `max_feedin` is 5840 W (the period's
`power_production - power_draw`, which also counts the power absorbed
by the battery): the returned maximum matches no recorded feed-in. -/
theorem c7_counterexample :
    forecast_setpoint sParams [sF1, sF2] = some sResult
    ∧ sResult.detail.map ForecastEntry.feedin = [1840, 0]
    ∧ sResult.max_feedin = 5840
    ∧ ((5840 : ℝ) ≠ 1840 ∧ (5840 : ℝ) ≠ 0) :=
  ⟨sRun, by norm_num [sResult, sE1, sE2], rfl, by norm_num⟩

/-- C2, witness: the clamping theorem applied to the concrete run of
scenario S, instantiated at the first recorded entry. -/
theorem c2_witness :
    0 ≤ sE1.battery_energy ∧ sE1.battery_energy ≤ sParams.batteryCapacity :=
  c2_battery_energy_clamped sParams [sF1, sF2] sResult
    (by norm_num [sParams]) (by norm_num [sParams]) (by norm_num [sParams]) sRun
    sE1 (by simp [sResult])

/-! ## Scenario S9: `auto_setpoint_target` with a missing battery energy -/

end HAEnergy





